import Mathlib

/-
Verification of `ctapipe/image/toymodel.py`.

The rasterizer (`make_toymodel_shower_image`) is embedded computably:
numpy arrays become a shape together with a flat (row-major) list of
entries, float pixel coordinates and densities become rationals, and the
ambient Poisson random source (`np.random.poisson`) becomes a pair of
explicit draw oracles `sdraw, ndraw : ℕ → ℕ` (Poisson draws are
non-negative integers by numpy's contract; an arbitrary oracle
over-approximates the set of possible draws).  `np.random.poisson`
raises a `ValueError` when a requested rate is negative; that is the
only exception any statement of the source can raise, so the embedding
returns `Except String _`, with `Except.error` exactly on that path.

The model builder (`generate_2d_shower_model`, `Gauss`,
`generate_muon_model`) is real-valued mathematics (cos, sin, exp, sqrt)
and is embedded over ℝ.
-/

/-- A numpy array: a shape together with the flat row-major list of its
entries. -/
structure NDArray (α : Type) where
  shape : List ℕ
  data : List α
deriving DecidableEq, Repr

/-- The camera geometry collaborator: parallel arrays of pixel x- and
y-coordinates (`geom.pix_x.value`, `geom.pix_y.value` in the source,
with astropy units stripped). -/
structure CameraGeometry where
  pix_x : NDArray ℚ
  pix_y : NDArray ℚ
deriving DecidableEq, Repr

/-- Semantics of `.astype(np.int32)` on an (in-range) float value:
C-style conversion discards the fractional part, i.e. floor for
non-negative values and ceiling for negative ones.  Values outside the
int32 range are assumed not to occur (out-of-range float-to-int
conversion is undefined behaviour in C and platform-dependent in
numpy). -/
def i32trunc (q : ℚ) : ℤ :=
  if 0 ≤ q then ⌊q⌋ else ⌈q⌉

/-- Truncation toward zero, written as T-division (truncating integer
division) of the numerator by the denominator. -/
def truncTowardZero (q : ℚ) : ℤ :=
  Int.tdiv q.num q.den

/-- `np.mean` of an integer array, as an exact rational. -/
def npMean (xs : List ℤ) : ℚ :=
  (xs.sum : ℚ) / xs.length

/-- `model_counts = (showerpdf(pos) * intensity).astype(np.int32)`:
the integer expected photo-electron count per pixel. -/
def model_counts (showerpdf : ℚ × ℚ → ℚ) (pos : List (ℚ × ℚ))
    (intensity : ℚ) : List ℤ :=
  pos.map (fun p => i32trunc (showerpdf p * intensity))

/-- `make_toymodel_shower_image(geom, showerpdf, intensity, nsb_level_pe)`:
build `pos` by pairing the pixel coordinate arrays, evaluate the density,
scale and truncate to integer expected counts, draw Poisson signal with
those per-pixel rates, draw Poisson noise at rate `nsb_level_pe` with the
signal's shape, and return `(signal + noise - mean(noise), signal, noise)`.
The two `if`s are the rate checks inside `np.random.poisson`, which raises
`ValueError("lam < 0")` on a negative rate; the source itself performs no
validation. -/
def make_toymodel_shower_image (geom : CameraGeometry)
    (showerpdf : ℚ × ℚ → ℚ) (intensity nsb_level_pe : ℚ)
    (sdraw ndraw : ℕ → ℕ) :
    Except String (NDArray ℚ × NDArray ℤ × NDArray ℤ) :=
  let pos : List (ℚ × ℚ) := List.zip geom.pix_x.data geom.pix_y.data
  let counts : List ℤ := model_counts showerpdf pos intensity
  if ∀ l ∈ counts, 0 ≤ l then
    let signal : NDArray ℤ :=
      ⟨geom.pix_x.shape, (List.range counts.length).map (fun i => ((sdraw i : ℕ) : ℤ))⟩
    if 0 ≤ nsb_level_pe then
      let noise : NDArray ℤ :=
        ⟨signal.shape, (List.range signal.data.length).map (fun i => ((ndraw i : ℕ) : ℤ))⟩
      let image : NDArray ℚ :=
        ⟨signal.shape,
         List.zipWith (fun (s n : ℤ) => ((s : ℚ) + (n : ℚ)) - npMean noise.data)
           signal.data noise.data⟩
      Except.ok (image, signal, noise)
    else Except.error "lam < 0"
  else Except.error "lam < 0"

/-- A one-pixel camera at the origin, used as a concrete test geometry. -/
def geom1 : CameraGeometry :=
  ⟨⟨[1], [0]⟩, ⟨[1], [0]⟩⟩

/-- Modelled from the spec: `ctapipe.utils.linalg.rotation_matrix_2d` is
code of this repository that is not under src; the spec says "build a 2D
rotation matrix `R` from `psi`", so this is the standard 2D rotation
matrix for angle `psi`. -/
noncomputable def rotation_matrix_2d (psi : ℝ) : Matrix (Fin 2) (Fin 2) ℝ :=
  Matrix.of ![![Real.cos psi, -Real.sin psi], ![Real.sin psi, Real.cos psi]]

/-- Modelled from the spec: `scipy.stats.multivariate_normal(mean, cov)`
is an external statistical-library object; the spec describes it as "a
multivariate-normal distribution with mean = centroid and covariance =
rotated covariance" exposing `pdf(point) -> density`, so it is a record
of the mean vector and the covariance matrix. -/
structure MultivariateNormal where
  mean : Fin 2 → ℝ
  cov : Matrix (Fin 2) (Fin 2) ℝ

/-- Modelled from the spec: the `pdf(point) -> density` capability of the
multivariate-normal object, the standard bivariate normal density with
the record's mean and covariance. -/
noncomputable def MultivariateNormal.pdf (d : MultivariateNormal)
    (p : Fin 2 → ℝ) : ℝ :=
  Real.exp (-(Matrix.dotProduct (p - d.mean)
      (Matrix.mulVec d.cov⁻¹ (p - d.mean))) / 2) /
    (2 * Real.pi * Real.sqrt d.cov.det)

/-- `generate_2d_shower_model(centroid, width, length, psi)`: build the
axis-aligned covariance `[[length, 0], [0, width]]`, rotate it by `psi`
(`C' = R C R^T`), and return the multivariate normal with mean
`centroid` and the rotated covariance. -/
noncomputable def generate_2d_shower_model (centroid : Fin 2 → ℝ)
    (width length psi : ℝ) : MultivariateNormal :=
  let aligned_covariance : Matrix (Fin 2) (Fin 2) ℝ :=
    Matrix.of ![![length, 0], ![0, width]]
  let rotation := rotation_matrix_2d psi
  ⟨centroid, rotation * aligned_covariance * rotation.transpose⟩

/-- `Gauss(x, mean, sigma) = exp(-(x - mean)^2 / (2 * sigma * sigma))`. -/
noncomputable def Gauss (x mean sigma : ℝ) : ℝ :=
  Real.exp (-(x - mean) ^ 2 / (2 * sigma * sigma))

/-- `generate_muon_model(xy, radius, width, centre_x, centre_y)`:
`r_pix` is the Euclidean distance of each point from the centre and
`Im_pix = Gauss(r_pix, radius, width)`.  The function performs no
validation and raises nothing (numpy reports the division by zero at
`width = 0` only as a floating-point warning), so the `Except` layer
always returns `ok`; the payload values at `width = 0` follow Lean's
`x / 0 = 0` convention and no theorem asserts them there. -/
noncomputable def generate_muon_model (xy : List (ℝ × ℝ))
    (radius width centre_x centre_y : ℝ) : Except String (List ℝ) :=
  Except.ok (xy.map (fun p =>
    Gauss (Real.sqrt ((p.1 - centre_x) ^ 2 + (p.2 - centre_y) ^ 2))
      radius width))

lemma i32trunc_eq_truncTowardZero (q : ℚ) :
    i32trunc q = truncTowardZero q := by
  unfold i32trunc truncTowardZero
  split
  case isTrue h =>
    rw [Rat.floor_def,
      Int.tdiv_eq_ediv (Rat.num_nonneg.mpr h) (Int.ofNat_nonneg _)]
  case isFalse h =>
    push_neg at h
    have hnum : q.num < 0 := Rat.num_neg.mpr h
    have h1 : q.num.tdiv (q.den : ℤ) = -((-q.num).tdiv (q.den : ℤ)) := by
      rw [Int.neg_tdiv, neg_neg]
    have hceil : (⌈q⌉ : ℤ) = -⌊-q⌋ := by
      rw [Int.floor_neg, neg_neg]
    rw [h1, Int.tdiv_eq_ediv (by omega : (0:ℤ) ≤ -q.num) (Int.ofNat_nonneg _),
      hceil, Rat.floor_def, Rat.neg_num, Rat.neg_den]

/-- C2: the image returned by make_toymodel_shower_image equals
elementwise (signal + noise) minus the arithmetic mean of the realized
noise array (not minus the nominal nsb level). -/
theorem make_toymodel_image_pedestal_subtraction (geom : CameraGeometry)
    (showerpdf : ℚ × ℚ → ℚ) (intensity nsb_level_pe : ℚ)
    (sdraw ndraw : ℕ → ℕ) (im : NDArray ℚ) (sig noi : NDArray ℤ)
    (h : make_toymodel_shower_image geom showerpdf intensity nsb_level_pe
      sdraw ndraw = Except.ok (im, sig, noi)) :
    im.data = List.zipWith
      (fun (s n : ℤ) => ((s : ℚ) + (n : ℚ)) - npMean noi.data)
      sig.data noi.data := by
  by_cases h1 : ∀ l ∈ model_counts showerpdf
      (List.zip geom.pix_x.data geom.pix_y.data) intensity, 0 ≤ l
  · by_cases h2 : 0 ≤ nsb_level_pe
    · simp only [make_toymodel_shower_image, if_pos h1, if_pos h2,
        Except.ok.injEq, Prod.mk.injEq] at h
      obtain ⟨him, hsig, hnoi⟩ := h
      subst him hsig hnoi
      rfl
    · simp only [make_toymodel_shower_image, if_pos h1, if_neg h2] at h
      exact Except.noConfusion h
  · simp only [make_toymodel_shower_image, if_neg h1] at h
    exact Except.noConfusion h

/-- Witness for C2 at a concrete one-pixel run. -/
theorem make_toymodel_image_pedestal_subtraction_witness :
    make_toymodel_shower_image geom1 (fun _ => 0) 1 0 (fun _ => 0) (fun _ => 0)
      = Except.ok (⟨[1], [0]⟩, ⟨[1], [0]⟩, ⟨[1], [0]⟩) ∧
    (⟨[1], [0]⟩ : NDArray ℚ).data = List.zipWith
      (fun (s n : ℤ) => ((s : ℚ) + (n : ℚ)) - npMean ((⟨[1], [0]⟩ : NDArray ℤ)).data)
      ((⟨[1], [0]⟩ : NDArray ℤ)).data ((⟨[1], [0]⟩ : NDArray ℤ)).data :=
  ⟨by norm_num [make_toymodel_shower_image, model_counts, i32trunc, npMean, geom1,
       List.range_succ],
   make_toymodel_image_pedestal_subtraction geom1 (fun _ => 0) 1 0
     (fun _ => 0) (fun _ => 0) ⟨[1], [0]⟩ ⟨[1], [0]⟩ ⟨[1], [0]⟩
     (by norm_num [make_toymodel_shower_image, model_counts, i32trunc, npMean, geom1,
       List.range_succ])⟩

/-- C3: the integer expected photo-electron count per pixel equals the
pixel's density value multiplied by intensity and truncated toward zero
(T-division of numerator by denominator), not rounded to nearest: at
9/10 truncation gives 0 while rounding gives 1. -/
theorem model_counts_truncate_toward_zero (showerpdf : ℚ × ℚ → ℚ)
    (pos : List (ℚ × ℚ)) (intensity : ℚ) :
    model_counts showerpdf pos intensity
      = pos.map (fun p => truncTowardZero (showerpdf p * intensity)) ∧
    truncTowardZero (9 / 10) = 0 ∧ round ((9 : ℚ) / 10) = 1 := by
  refine ⟨?_, ?_, ?_⟩
  · simp only [model_counts, i32trunc_eq_truncTowardZero]
  · norm_num [truncTowardZero]
    decide
  · rw [round_eq]
    norm_num

/-- Counterexample to C5: `make_toymodel_shower_image` with
`intensity = 0` is not rejected; it returns an image. -/
theorem make_toymodel_zero_intensity_accepted_cex :
    make_toymodel_shower_image geom1 (fun _ => 1) 0 50 (fun _ => 0) (fun _ => 0)
      = Except.ok (⟨[1], [0]⟩, ⟨[1], [0]⟩, ⟨[1], [0]⟩) := by
  norm_num [make_toymodel_shower_image, model_counts, i32trunc, npMean, geom1,
       List.range_succ]

/-- C5 (amended): `make_toymodel_shower_image` performs no intensity
validation; a call with `intensity = 0` produces all-zero expected
counts and succeeds (for any non-negative nsb level). -/
theorem make_toymodel_zero_intensity_ok (geom : CameraGeometry)
    (showerpdf : ℚ × ℚ → ℚ) (nsb_level_pe : ℚ) (sdraw ndraw : ℕ → ℕ)
    (hnsb : 0 ≤ nsb_level_pe) :
    (∀ c ∈ model_counts showerpdf
        (List.zip geom.pix_x.data geom.pix_y.data) 0, c = 0) ∧
    (make_toymodel_shower_image geom showerpdf 0 nsb_level_pe
      sdraw ndraw).isOk = true := by
  have hc : ∀ c ∈ model_counts showerpdf
      (List.zip geom.pix_x.data geom.pix_y.data) 0, c = 0 := by
    intro c hmem
    simp only [model_counts, List.mem_map] at hmem
    obtain ⟨p, _, rfl⟩ := hmem
    simp [i32trunc]
  refine ⟨hc, ?_⟩
  have h1 : ∀ l ∈ model_counts showerpdf
      (List.zip geom.pix_x.data geom.pix_y.data) 0, 0 ≤ l :=
    fun l hl => le_of_eq (hc l hl).symm
  simp only [make_toymodel_shower_image, if_pos h1, if_pos hnsb, Except.isOk]
  rfl

/-- Witness for the amended C5 at a concrete input. -/
theorem make_toymodel_zero_intensity_ok_witness :
    ((0 : ℚ) ≤ 50) ∧
    ((∀ c ∈ model_counts (fun _ => 1)
        (List.zip geom1.pix_x.data geom1.pix_y.data) 0, c = 0) ∧
     (make_toymodel_shower_image geom1 (fun _ => 1) 0 50
       (fun _ => 0) (fun _ => 0)).isOk = true) :=
  ⟨by norm_num,
   make_toymodel_zero_intensity_ok geom1 (fun _ => 1) 50
     (fun _ => 0) (fun _ => 0) (by norm_num)⟩

/-- C7: for a geometry whose two pixel-coordinate arrays share a shape
and a length, a successful `make_toymodel_shower_image` returns image,
signal and noise arrays of that same shape (and entry count). -/
theorem make_toymodel_image_shapes (geom : CameraGeometry)
    (showerpdf : ℚ × ℚ → ℚ) (intensity nsb_level_pe : ℚ)
    (sdraw ndraw : ℕ → ℕ) (im : NDArray ℚ) (sig noi : NDArray ℤ)
    (hshape : geom.pix_x.shape = geom.pix_y.shape)
    (hlen : geom.pix_x.data.length = geom.pix_y.data.length)
    (h : make_toymodel_shower_image geom showerpdf intensity nsb_level_pe
      sdraw ndraw = Except.ok (im, sig, noi)) :
    (im.shape = geom.pix_x.shape ∧ sig.shape = geom.pix_x.shape ∧
      noi.shape = geom.pix_x.shape) ∧
    (im.data.length = geom.pix_x.data.length ∧
      sig.data.length = geom.pix_x.data.length ∧
      noi.data.length = geom.pix_x.data.length) := by
  by_cases h1 : ∀ l ∈ model_counts showerpdf
      (List.zip geom.pix_x.data geom.pix_y.data) intensity, 0 ≤ l
  · by_cases h2 : 0 ≤ nsb_level_pe
    · simp only [make_toymodel_shower_image, if_pos h1, if_pos h2,
        Except.ok.injEq, Prod.mk.injEq] at h
      obtain ⟨him, hsig, hnoi⟩ := h
      subst him hsig hnoi
      refine ⟨⟨rfl, rfl, rfl⟩, ?_⟩
      simp [model_counts, List.length_zip, hlen]
    · simp only [make_toymodel_shower_image, if_pos h1, if_neg h2] at h
      exact Except.noConfusion h
  · simp only [make_toymodel_shower_image, if_neg h1] at h
    exact Except.noConfusion h

/-- Witness for C7 at a concrete one-pixel run. -/
theorem make_toymodel_image_shapes_witness :
    (geom1.pix_x.shape = geom1.pix_y.shape ∧
     geom1.pix_x.data.length = geom1.pix_y.data.length) ∧
    (((⟨[1], [0]⟩ : NDArray ℚ)).shape = geom1.pix_x.shape ∧
      ((⟨[1], [0]⟩ : NDArray ℤ)).shape = geom1.pix_x.shape ∧
      ((⟨[1], [0]⟩ : NDArray ℤ)).shape = geom1.pix_x.shape) ∧
    (((⟨[1], [0]⟩ : NDArray ℚ)).data.length = geom1.pix_x.data.length ∧
      ((⟨[1], [0]⟩ : NDArray ℤ)).data.length = geom1.pix_x.data.length ∧
      ((⟨[1], [0]⟩ : NDArray ℤ)).data.length = geom1.pix_x.data.length) :=
  ⟨⟨rfl, rfl⟩,
   make_toymodel_image_shapes geom1 (fun _ => 0) 1 0 (fun _ => 0) (fun _ => 0)
     ⟨[1], [0]⟩ ⟨[1], [0]⟩ ⟨[1], [0]⟩ rfl rfl
     (by norm_num [make_toymodel_shower_image, model_counts, i32trunc, npMean, geom1,
       List.range_succ])⟩

/-- C8: for valid inputs (non-negative densities, positive intensity,
non-negative nsb level), every element of the signal and noise arrays
returned by `make_toymodel_shower_image` is a non-negative integer. -/
theorem make_toymodel_signal_noise_nonneg (geom : CameraGeometry)
    (showerpdf : ℚ × ℚ → ℚ) (intensity nsb_level_pe : ℚ)
    (sdraw ndraw : ℕ → ℕ) (im : NDArray ℚ) (sig noi : NDArray ℤ)
    (hpdf : ∀ p, 0 ≤ showerpdf p) (hint : 0 < intensity)
    (hnsb : 0 ≤ nsb_level_pe)
    (h : make_toymodel_shower_image geom showerpdf intensity nsb_level_pe
      sdraw ndraw = Except.ok (im, sig, noi)) :
    (∀ x ∈ sig.data, 0 ≤ x) ∧ (∀ x ∈ noi.data, 0 ≤ x) := by
  by_cases h1 : ∀ l ∈ model_counts showerpdf
      (List.zip geom.pix_x.data geom.pix_y.data) intensity, 0 ≤ l
  · by_cases h2 : 0 ≤ nsb_level_pe
    · simp only [make_toymodel_shower_image, if_pos h1, if_pos h2,
        Except.ok.injEq, Prod.mk.injEq] at h
      obtain ⟨him, hsig, hnoi⟩ := h
      subst him hsig hnoi
      constructor <;>
        · intro x hx
          simp only [List.mem_map] at hx
          obtain ⟨i, _, rfl⟩ := hx
          exact Int.ofNat_nonneg _
    · exact absurd hnsb h2
  · simp only [make_toymodel_shower_image, if_neg h1] at h
    exact Except.noConfusion h

/-- Witness for C8 at a concrete one-pixel run. -/
theorem make_toymodel_signal_noise_nonneg_witness :
    ((∀ p : ℚ × ℚ, (0 : ℚ) ≤ (fun _ => 1) p) ∧ (0 : ℚ) < 1 ∧ (0 : ℚ) ≤ 0) ∧
    ((∀ x ∈ ((⟨[1], [1]⟩ : NDArray ℤ)).data, 0 ≤ x) ∧
     (∀ x ∈ ((⟨[1], [1]⟩ : NDArray ℤ)).data, 0 ≤ x)) :=
  ⟨⟨fun _ => zero_le_one, zero_lt_one, le_refl 0⟩,
   make_toymodel_signal_noise_nonneg geom1 (fun _ => 1) 1 0
     (fun _ => 1) (fun _ => 1) ⟨[1], [1]⟩ ⟨[1], [1]⟩ ⟨[1], [1]⟩
     (fun _ => zero_le_one) zero_lt_one (le_refl 0)
     (by norm_num [make_toymodel_shower_image, model_counts, i32trunc, npMean, geom1,
       List.range_succ])⟩

lemma aligned_cov_eq_diagonal (length width : ℝ) :
    (Matrix.of ![![length, 0], ![0, width]] : Matrix (Fin 2) (Fin 2) ℝ)
      = Matrix.diagonal ![length, width] := by
  ext i j
  fin_cases i <;> fin_cases j <;> simp [Matrix.diagonal]

/-- C1: generate_2d_shower_model returns the multivariate-normal object
whose mean is the centroid and whose covariance is
R(psi) * diag(length, width) * R(psi)^T. -/
theorem generate_2d_shower_model_mean_cov (centroid : Fin 2 → ℝ)
    (width length psi : ℝ) :
    (generate_2d_shower_model centroid width length psi).mean = centroid ∧
    (generate_2d_shower_model centroid width length psi).cov =
      rotation_matrix_2d psi * Matrix.diagonal ![length, width] *
        (rotation_matrix_2d psi).transpose := by
  refine ⟨rfl, ?_⟩
  simp only [generate_2d_shower_model]
  rw [aligned_cov_eq_diagonal]

lemma rotation_matrix_2d_zero : rotation_matrix_2d 0 = 1 := by
  ext i j
  fin_cases i <;> fin_cases j <;>
    simp [rotation_matrix_2d, Matrix.one_apply]

/-- C9: with psi = 0 the covariance passed to the multivariate normal is
exactly diag(length, width), for every length and width. -/
theorem generate_2d_shower_model_psi_zero_cov (centroid : Fin 2 → ℝ)
    (width length : ℝ) :
    (generate_2d_shower_model centroid width length 0).cov =
      Matrix.diagonal ![length, width] := by
  simp only [generate_2d_shower_model]
  rw [rotation_matrix_2d_zero, aligned_cov_eq_diagonal]
  simp

lemma rotation_matrix_2d_add_pi (psi : ℝ) :
    rotation_matrix_2d (psi + Real.pi) = -rotation_matrix_2d psi := by
  ext i j
  fin_cases i <;> fin_cases j <;>
    simp [rotation_matrix_2d, Real.cos_add_pi, Real.sin_add_pi]

/-- C10: the shower models built with angles psi and psi + pi have the
same pdf at every point of the plane (the rotated covariance is the
same for both angles). -/
theorem generate_2d_shower_model_pi_rotation_same_pdf (centroid : Fin 2 → ℝ)
    (width length psi : ℝ) (p : Fin 2 → ℝ) :
    (generate_2d_shower_model centroid width length (psi + Real.pi)).pdf p =
      (generate_2d_shower_model centroid width length psi).pdf p := by
  have hmodel : generate_2d_shower_model centroid width length (psi + Real.pi)
      = generate_2d_shower_model centroid width length psi := by
    simp only [generate_2d_shower_model]
    rw [rotation_matrix_2d_add_pi]
    simp [Matrix.neg_mul, Matrix.mul_neg, Matrix.transpose_neg]
  rw [hmodel]

/-- C4: for nonzero width, generate_muon_model returns at each point the
value exp(-(r - radius)^2 / (2 width^2)) with r the distance from the
centre, every returned intensity lies in (0, 1], and the intensity is
exactly 1 at points whose distance from the centre equals the radius. -/
theorem generate_muon_model_gaussian_ring (xy : List (ℝ × ℝ))
    (radius width centre_x centre_y : ℝ) (hw : width ≠ 0) :
    generate_muon_model xy radius width centre_x centre_y =
      Except.ok (xy.map (fun p =>
        Real.exp (-(Real.sqrt ((p.1 - centre_x) ^ 2 + (p.2 - centre_y) ^ 2)
            - radius) ^ 2 / (2 * width ^ 2)))) ∧
    (∀ p ∈ xy,
      0 < Gauss (Real.sqrt ((p.1 - centre_x) ^ 2 + (p.2 - centre_y) ^ 2))
          radius width ∧
      Gauss (Real.sqrt ((p.1 - centre_x) ^ 2 + (p.2 - centre_y) ^ 2))
          radius width ≤ 1) ∧
    (∀ p ∈ xy,
      Real.sqrt ((p.1 - centre_x) ^ 2 + (p.2 - centre_y) ^ 2) = radius →
      Gauss (Real.sqrt ((p.1 - centre_x) ^ 2 + (p.2 - centre_y) ^ 2))
        radius width = 1) := by
  have hww : 2 * width * width = 2 * width ^ 2 := by ring
  refine ⟨?_, ?_, ?_⟩
  · simp only [generate_muon_model, Gauss, hww]
  · intro p _
    refine ⟨Real.exp_pos _, ?_⟩
    rw [Gauss]
    refine Real.exp_le_one_iff.mpr (div_nonpos_of_nonpos_of_nonneg ?_ ?_)
    · exact neg_nonpos.mpr (sq_nonneg _)
    · rw [hww]
      positivity
  · intro p _ hr
    simp [Gauss, hr]

/-- Witness for C4: on the ring of radius 1 centred at the origin with
width 1/10, the point (1, 0) gets a positive intensity at most 1. -/
theorem generate_muon_model_gaussian_ring_witness :
    ((1 : ℝ) / 10 ≠ 0) ∧
    (∀ p ∈ [((1 : ℝ), (0 : ℝ))],
      0 < Gauss (Real.sqrt ((p.1 - 0) ^ 2 + (p.2 - 0) ^ 2)) 1 (1 / 10) ∧
      Gauss (Real.sqrt ((p.1 - 0) ^ 2 + (p.2 - 0) ^ 2)) 1 (1 / 10) ≤ 1) :=
  ⟨by norm_num,
   (generate_muon_model_gaussian_ring [((1 : ℝ), 0)] 1 (1 / 10) 0 0
     (by norm_num)).2.1⟩

/-- Counterexample to C6: generate_muon_model with width = 0 is not
rejected; it returns a result. -/
theorem generate_muon_model_zero_width_accepted_cex :
    (generate_muon_model [((1 : ℝ), 0)] 1 0 0 0).isOk = true := rfl

/-- C6 (amended): generate_muon_model performs no width validation; a
call with width = 0 returns normally for every point array, radius and
centre (numpy only emits a floating-point warning there). -/
theorem generate_muon_model_no_width_validation (xy : List (ℝ × ℝ))
    (radius centre_x centre_y : ℝ) :
    (generate_muon_model xy radius 0 centre_x centre_y).isOk = true := rfl
